import Mathlib

/-!
Verification of the failure-report post-processing pipelines:
the report enhancer (scripts/enhance-failure-report.py) and the
HTML renderer (scripts/generate-html-summary.py), embedded shallowly.

Strings are Lean strings; Python `s.lower()` is `lowerStr`;
Python `kw in s` (substring test) is `strHas s kw` below; Python floats
that only feed threshold comparisons and one-decimal formatting are
modelled as exact rationals.
-/

/-- `strMatchAt pat hay` : does `pat` occur at the very start of `hay`?
(List-of-characters worker for the substring test.) -/
def strMatchAt : List Char → List Char → Bool
  | [], _ => true
  | _ :: _, [] => false
  | p :: ps, h :: hs => p == h && strMatchAt ps hs

/-- `strHasAux pat hay` : does `pat` occur anywhere inside `hay`? -/
def strHasAux (pat : List Char) : List Char → Bool
  | [] => strMatchAt pat []
  | c :: t => strMatchAt pat (c :: t) || strHasAux pat t

/-- `strHas s kw` models the Python membership test `kw in s` on strings. -/
def strHas (s kw : String) : Bool :=
  strHasAux kw.data s.data

/-- Python `s.lower()` (ASCII case folding, character by character). -/
def lowerStr (s : String) : String :=
  ⟨s.data.map Char.toLower⟩

/-- The seven fixed failure-pattern categories of `_add_failure_patterns`,
in the priority order of the source's if/elif chain. -/
inductive Cat where
  | timeout
  | assertion
  | connection
  | authentication
  | dataValidation
  | nullPointer
  | other
deriving DecidableEq, Repr

/-- The category keys in the order the `patterns` dict of
`_add_failure_patterns` is initialised (= Python dict iteration order). -/
def catOrder : List Cat :=
  [.timeout, .assertion, .connection, .authentication,
   .dataValidation, .nullPointer, .other]

/-- The string key each category uses in the JSON output. -/
def catKey : Cat → String
  | .timeout => "timeout_failures"
  | .assertion => "assertion_failures"
  | .connection => "connection_failures"
  | .authentication => "authentication_failures"
  | .dataValidation => "data_validation_failures"
  | .nullPointer => "null_pointer_failures"
  | .other => "other_failures"

/-- The if/elif classification chain of `_add_failure_patterns`
(source lines 85-98), applied to the raw error message and error type;
the source lower-cases both before testing. -/
def classifyFailure (errorMsg errorType : String) : Cat :=
  let m := lowerStr errorMsg
  let t := lowerStr errorType
  if strHas m "timeout" || strHas t "timeout" then .timeout
  else if strHas m "assertion" || strHas m "expected" then .assertion
  else if strHas m "connection" || strHas m "unable to connect" then .connection
  else if strHas m "auth" || strHas m "unauthorized" || strHas m "401" then .authentication
  else if strHas m "validation" || strHas m "invalid" then .dataValidation
  else if strHas t "nullpointer" || strHas m "null" then .nullPointer
  else .other

/-- Modelled from the spec: the ordered rule table of section 4.1,
one (category, keyword-predicate) pair per non-default category,
to be evaluated first-match-wins on the lowered message and type. -/
def ruleTable : List (Cat × (String → String → Bool)) :=
  [(.timeout, fun m t => strHas m "timeout" || strHas t "timeout"),
   (.assertion, fun m _ => strHas m "assertion" || strHas m "expected"),
   (.connection, fun m _ => strHas m "connection" || strHas m "unable to connect"),
   (.authentication, fun m _ => strHas m "auth" || strHas m "unauthorized" || strHas m "401"),
   (.dataValidation, fun m _ => strHas m "validation" || strHas m "invalid"),
   (.nullPointer, fun m t => strHas t "nullpointer" || strHas m "null")]

/-- First rule of the table that fires, default category when none does. -/
def firstMatch (m t : String) : List (Cat × (String → String → Bool)) → Cat
  | [] => .other
  | r :: rs => if r.2 m t then r.1 else firstMatch m t rs

/-- Modelled from the spec: the section 4.1 classifier as a
first-match-wins scan of the ordered rule table. -/
def specFirstMatchClassify (errorMsg errorType : String) : Cat :=
  firstMatch (lowerStr errorMsg) (lowerStr errorType) ruleTable

/-- A step record of a failed scenario. -/
structure Step where
  keyword : String
  text : String
  status : String
  errorMessage : Option String
deriving DecidableEq, Repr

/-- A failure record. Optional JSON fields are `Option`s
(`none` = key absent or null); list-valued optional fields default to `[]`
exactly as the source's `.get(key, [])` does. -/
structure Failure where
  scenarioName : String
  line : Nat
  errorMessage : Option String
  errorType : Option String
  tags : List String
  duration : Option ℚ
  steps : List Step
  stackTrace : Option String
deriving DecidableEq, Repr

/-- A feature: a name plus its ordered failure records. -/
structure Feature where
  featureName : String
  failures : List Failure
deriving DecidableEq, Repr

/-- All (feature, failure) pairs in input traversal order:
feature order, then failure order within the feature — the double loop
shared by `_add_failure_patterns`, `_categorize_errors` and
`_add_retry_suggestions`. -/
def allFailurePairs (features : List Feature) : List (Feature × Failure) :=
  (features.map (fun ft => ft.failures.map (fun f => (ft, f)))).flatten

/-- The `failure_info` summary dict built per failure in
`_add_failure_patterns` (source lines 77-82). -/
structure FailureInfo where
  feature : String
  scenario : String
  line : Nat
  error : String
deriving DecidableEq, Repr

/-- Source lines 77-82: `failure.get('errorMessage', 'Unknown error')` etc. -/
def failureInfoOf (ft : Feature) (f : Failure) : FailureInfo :=
  { feature := ft.featureName
    scenario := f.scenarioName
    line := f.line
    error := f.errorMessage.getD "Unknown error" }

/-- Category of one failure record: the chain applied to
`(failure.get('errorMessage') or '')` and `(failure.get('errorType') or '')`. -/
def classOf (f : Failure) : Cat :=
  classifyFailure (f.errorMessage.getD "") (f.errorType.getD "")

/-- The per-category list the `patterns` dict of `_add_failure_patterns`
accumulates: failure infos in traversal order, appended to the list of the
(unique) category the chain selects. -/
def patternsMap (features : List Feature) (c : Cat) : List FailureInfo :=
  ((allFailurePairs features).filter (fun p => classOf p.2 == c)).map
    (fun p => failureInfoOf p.1 p.2)

/-- `report['failurePatterns']`: the patterns dict with empty categories
removed (source lines 100-103), as an ordered association list. -/
def failurePatterns (features : List Feature) : List (Cat × List FailureInfo) :=
  catOrder.filterMap (fun c =>
    let l := patternsMap features c
    if l.isEmpty then none else some (c, l))

/-- `report['failurePatternSummary']` (source lines 104-107): per surviving
category, the length of its list. -/
def failurePatternSummary (features : List Feature) : List (Cat × Nat) :=
  (failurePatterns features).map (fun p => (p.1, p.2.length))

/-- Number of classified records of category `c` in a classified list. -/
def countIn (c : Cat) (l : List (Feature × Failure)) : Nat :=
  (l.filter (fun p => classOf p.2 == c)).length

/-- A concrete failure used by witnesses: times out. -/
def sampleTimeoutFailure : Failure :=
  { scenarioName := "Booking create times out"
    line := 12
    errorMessage := some "Connection timed out after 503"
    errorType := some "TimeoutException"
    tags := ["@booking"]
    duration := some 31000
    steps := []
    stackTrace := none }

/-- A concrete failure used by witnesses: an assertion mismatch. -/
def sampleAssertFailure : Failure :=
  { scenarioName := "Booking total is correct"
    line := 40
    errorMessage := some "Expected true but got false"
    errorType := some "AssertionError"
    tags := []
    duration := none
    steps := []
    stackTrace := none }

/-- A concrete feature list used by witnesses. -/
def sampleFeatures : List Feature :=
  [{ featureName := "Booking API", failures := [sampleTimeoutFailure, sampleAssertFailure] }]

/-- The summary block of a report: scenario counts
(`summary.get(key, 0)` semantics — an absent count is 0). -/
structure Summary where
  totalScenarios : Nat
  passedScenarios : Nat
  failedScenarios : Nat
  skippedScenarios : Nat
deriving DecidableEq, Repr

/-- An actionable-insight record. -/
structure Insight where
  type : String
  severity : String
  message : String
  recommendation : String
deriving DecidableEq, Repr

/-- Round half to even, the rounding used by Python float formatting,
idealised on exact rationals. -/
def roundHalfEven (q : ℚ) : ℤ :=
  let f := ⌊q⌋
  let r := q - f
  if r < 1/2 then f
  else if 1/2 < r then f + 1
  else if f % 2 = 0 then f else f + 1

/-- Python one-decimal fixed-point formatting, the f-string slot
specifier .1f, idealised on exact rationals. -/
def fmt1 (q : ℚ) : String :=
  let n := roundHalfEven (q * 10)
  let sign := if n < 0 then "-" else ""
  sign ++ toString (n.natAbs / 10) ++ "." ++ toString (n.natAbs % 10)

/-- `failure_rate = (failed_count / total) * 100` (source line 146). -/
def failureRate (failed total : Nat) : ℚ :=
  ((failed : ℚ) / (total : ℚ)) * 100

/-- The insight appended when no scenario failed (source lines 136-141). -/
def successInsight : Insight :=
  { type := "SUCCESS", severity := "INFO"
    message := "All tests passed successfully. No action required."
    recommendation := "Monitor for consistency in future runs." }

/-- The percentage message shared by the two rate insights. -/
def rateMessage (rate : ℚ) (failed total : Nat) : String :=
  fmt1 rate ++ "% of tests failed (" ++ toString failed ++ "/"
    ++ toString total ++ ")"

/-- The systemic-issue insight of source lines 149-154. -/
def criticalRateInsight (failed total : Nat) : Insight :=
  { type := "HIGH_FAILURE_RATE", severity := "CRITICAL"
    message := rateMessage (failureRate failed total) failed total
    recommendation := "Investigate environment issues or recent code changes. This indicates systemic problems." }

/-- The moderate-rate insight of source lines 156-161. -/
def moderateRateInsight (failed total : Nat) : Insight :=
  { type := "MODERATE_FAILURE_RATE", severity := "HIGH"
    message := rateMessage (failureRate failed total) failed total
    recommendation := "Review failed scenarios for common patterns." }

/-- The rate-threshold insights of source lines 144-161: at most one
insight, CRITICAL above 50 percent, HIGH above 20 percent. -/
def rateInsights (failed total : Nat) : List Insight :=
  if 0 < total then
    if 50 < failureRate failed total then [criticalRateInsight failed total]
    else if 20 < failureRate failed total then [moderateRateInsight failed total]
    else []
  else []

/-- Source lines 166-172. -/
def timeoutInsight (n : Nat) : Insight :=
  { type := "TIMEOUT_PATTERN", severity := "HIGH"
    message := toString n ++ " timeout failures detected"
    recommendation := "Check application response times, database performance, or increase timeout thresholds." }

/-- Source lines 174-180. -/
def authInsight (n : Nat) : Insight :=
  { type := "AUTH_PATTERN", severity := "HIGH"
    message := toString n ++ " authentication failures detected"
    recommendation := "Verify test credentials and authentication endpoints are working correctly." }

/-- Source lines 182-188. -/
def connectionInsight (n : Nat) : Insight :=
  { type := "CONNECTION_PATTERN", severity := "CRITICAL"
    message := toString n ++ " connection failures detected"
    recommendation := "Check network connectivity, service availability, and firewall rules." }

/-- Source lines 190-196. -/
def npeInsight (n : Nat) : Insight :=
  { type := "NPE_PATTERN", severity := "MEDIUM"
    message := toString n ++ " null pointer exceptions detected"
    recommendation := "Review test data setup and null handling in step definitions." }

/-- The pattern-count insights of source lines 163-196, appended in the
fixed order of the source; `pat` is the count lookup: failurePatternSummary
read back from the report, an absent category counting as 0. -/
def patternInsights (pat : Cat → Nat) : List Insight :=
  (if 2 < pat .timeout then [timeoutInsight (pat .timeout)] else [])
  ++ (if 0 < pat .authentication then [authInsight (pat .authentication)] else [])
  ++ (if 0 < pat .connection then [connectionInsight (pat .connection)] else [])
  ++ (if 0 < pat .nullPointer then [npeInsight (pat .nullPointer)] else [])

/-- `_add_actionable_insights` (source lines 128-198): the insights list,
given the failed count, total count and the pattern-count lookup. -/
def addActionableInsights (failed total : Nat) (pat : Cat → Nat) : List Insight :=
  if failed = 0 then [successInsight]
  else rateInsights failed total ++ patternInsights pat

/-- A retry-suggestion record (source lines 214-221). -/
structure RetrySuggestion where
  feature : String
  scenario : String
  line : Nat
  tags : List String
  shouldRetry : Bool
  reason : String
deriving DecidableEq, Repr

/-- The fixed transient-keyword list of source lines 209-212. -/
def transientKeywords : List String :=
  ["timeout", "connection", "temporarily unavailable",
   "service unavailable", "network", "503", "504"]

/-- `is_transient` (source lines 206-212): some transient keyword occurs
in the lowered error message. -/
def isTransient (errorMsg : String) : Bool :=
  transientKeywords.any (fun kw => strHas (lowerStr errorMsg) kw)

/-- The record `_add_retry_suggestions` emits for one failure
(source lines 205-221). -/
def retrySuggestionOf (ft : Feature) (f : Failure) : RetrySuggestion :=
  let transient := isTransient (f.errorMessage.getD "")
  { feature := ft.featureName
    scenario := f.scenarioName
    line := f.line
    tags := f.tags
    shouldRetry := transient
    reason := if transient then "Transient failure detected"
              else "Deterministic failure - requires fix" }

/-- `report['retrySuggestions']` (source lines 200-223). -/
def addRetrySuggestions (features : List Feature) : List RetrySuggestion :=
  (allFailurePairs features).map (fun p => retrySuggestionOf p.1 p.2)

/-- One occurrence record of `_categorize_errors` (source lines 116-120). -/
structure ErrOccurrence where
  feature : String
  scenario : String
  message : String
deriving DecidableEq, Repr

/-- `failure.get('errorType', 'UnknownError')` (source line 115). -/
def errTypeOf (f : Failure) : String :=
  f.errorType.getD "UnknownError"

/-- The error-type keys in first-seen order — the insertion order of the
defaultdict in `_categorize_errors`. -/
def errKeys (l : List (Feature × Failure)) : List String :=
  l.foldl (fun acc p =>
    if acc.contains (errTypeOf p.2) then acc else acc ++ [errTypeOf p.2]) []

/-- Source lines 116-120. -/
def errOccOf (ft : Feature) (f : Failure) : ErrOccurrence :=
  { feature := ft.featureName
    scenario := f.scenarioName
    message := f.errorMessage.getD "" }

/-- `report['errorCategories']` (source lines 109-122): per error type in
first-seen order, its occurrences in traversal order. -/
def errorCategories (features : List Feature) : List (String × List ErrOccurrence) :=
  (errKeys (allFailurePairs features)).map (fun k =>
    (k, ((allFailurePairs features).filter (fun p => errTypeOf p.2 == k)).map
          (fun p => errOccOf p.1 p.2)))

/-- `report['errorCategorySummary']` (source lines 123-126). -/
def errorCategorySummary (features : List Feature) : List (String × Nat) :=
  (errorCategories features).map (fun p => (p.1, p.2.length))

/-- The metadata block read by the HTML renderer. -/
structure Metadata where
  buildNumber : Option String
  environment : Option String
  duration : Option ℚ
deriving DecidableEq, Repr

/-- The enhancement stamp written at source lines 38-41. -/
structure Enhancement where
  enhancedAt : String
  version : String
deriving DecidableEq, Repr

/-- A report document. The enhancer-added fields are `Option`s:
`none` models the key being absent from the JSON document. -/
structure Report where
  metadata : Metadata
  summary : Summary
  features : List Feature
  enhancement : Option Enhancement := none
  failurePatterns : Option (List (Cat × List FailureInfo)) := none
  failurePatternSummary : Option (List (Cat × Nat)) := none
  errorCategories : Option (List (String × List ErrOccurrence)) := none
  errorCategorySummary : Option (List (String × Nat)) := none
  actionableInsights : Option (List Insight) := none
  retrySuggestions : Option (List RetrySuggestion) := none
deriving DecidableEq, Repr

/-- The count lookup `_add_actionable_insights` performs on
`report.get('failurePatternSummary', ...)` with per-key default 0. -/
def patLookup (o : Option (List (Cat × Nat))) (c : Cat) : Nat :=
  ((o.getD []).lookup c).getD 0

/-- `enhance` (source lines 28-58) with the `serenity_report_path = None`
invocation: stamps the enhancement metadata, then runs
`_add_failure_patterns`, `_categorize_errors`, `_add_actionable_insights`
and `_add_retry_suggestions` in that order on the mutable report.
The clock reading `datetime.utcnow().isoformat()` is the explicit
parameter `ts`. -/
def enhanceReport (ts : String) (r : Report) : Report :=
  let r1 := { r with enhancement := some { enhancedAt := ts, version := "1.0.0" } }
  let r2 := { r1 with
    failurePatterns := some (failurePatterns r1.features)
    failurePatternSummary := some (failurePatternSummary r1.features) }
  let r3 := { r2 with
    errorCategories := some (errorCategories r2.features)
    errorCategorySummary := some (errorCategorySummary r2.features) }
  let r4 := { r3 with
    actionableInsights := some (addActionableInsights
      r3.summary.failedScenarios r3.summary.totalScenarios
      (patLookup r3.failurePatternSummary)) }
  { r4 with retrySuggestions := some (addRetrySuggestions r4.features) }

/-!
The fixed text of HTML_TEMPLATE (source lines 14-441), split at its 13
format-slot occurrences (slot order: build_number, build_number,
environment, duration, timestamp, total_scenarios, passed_scenarios,
failed_scenarios, skipped_scenarios, insights_section, patterns_section,
failures_section, timestamp). Segment k is the literal template text
before the k-th slot value, the doubled braces of the Python template
undoubled exactly as str.format renders them.
-/

/-- Template text before slot 0. -/
def htmlSeg0 : String :=
  "\n<!DOCTYPE html>\n<html lang=\"en\">\n<head>\n    <meta charset=\"UTF-8\">\n    <meta name=\"viewport\" content=\"width=device-width, initial-scale=1.0\">\n    <title>Test Failure Analysis - Build "

/-- Template text before slot 1. -/
def htmlSeg1 : String :=
  "</title>\n    <style>\n        * \x7b\n            margin: 0;\n            padding: 0;\n            box-sizing: border-box;\n        \x7d\n        \n        body \x7b\n            font-family: -apple-system, BlinkMacSystemFont, \"Segoe UI\", Roboto, \"Helvetica Neue\", Arial, sans-serif;\n            background: #f5f5f5;\n            color: #333;\n            line-height: 1.6;\n        \x7d\n        \n        .container \x7b\n            max-width: 1400px;\n            margin: 0 auto;\n            padding: 20px;\n        \x7d\n        \n        header \x7b\n            background: linear-gradient(135deg, #667eea 0%, #764ba2 100%);\n            color: white;\n            padding: 30px;\n            border-radius: 10px;\n            margin-bottom: 30px;\n            box-shadow: 0 4px 6px rgba(0,0,0,0.1);\n        \x7d\n        \n        header h1 \x7b\n            font-size: 28px;\n            margin-bottom: 10px;\n        \x7d\n        \n        .metadata \x7b\n            display: grid;\n            grid-template-columns: repeat(auto-fit, minmax(200px, 1fr));\n            gap: 10px;\n            font-size: 14px;\n            opacity: 0.9;\n        \x7d\n        \n        .metadata-item \x7b\n            display: flex;\n            gap: 8px;\n        \x7d\n        \n        .metadata-label \x7b\n            font-weight: 600;\n        \x7d\n        \n        .summary \x7b\n            display: grid;\n            grid-template-columns: repeat(auto-fit, minmax(200px, 1fr));\n            gap: 20px;\n            margin-bottom: 30px;\n        \x7d\n        \n        .summary-card \x7b\n            background: white;\n            padding: 20px;\n            border-radius: 8px;\n            box-shadow: 0 2px 4px rgba(0,0,0,0.1);\n            border-left: 4px solid #667eea;\n        \x7d\n        \n        .summary-card.failed \x7b\n            border-left-color: #ef4444;\n        \x7d\n        \n        .summary-card.passed \x7b\n            border-left-color: #10b981;\n        \x7d\n        \n        .summary-card.skipped \x7b\n            border-left-color: #f59e0b;\n        \x7d\n        \n        .summary-card h3 \x7b\n            font-size: 14px;\n            color: #666;\n            margin-bottom: 8px;\n            text-transform: uppercase;\n            letter-spacing: 0.5px;\n        \x7d\n        \n        .summary-card .value \x7b\n            font-size: 36px;\n            font-weight: 700;\n            color: #333;\n        \x7d\n        \n        .insights \x7b\n            background: white;\n            padding: 25px;\n            border-radius: 8px;\n            margin-bottom: 30px;\n            box-shadow: 0 2px 4px rgba(0,0,0,0.1);\n        \x7d\n        \n        .insights h2 \x7b\n            font-size: 20px;\n            margin-bottom: 20px;\n            color: #333;\n        \x7d\n        \n        .insight \x7b\n            padding: 15px;\n            margin-bottom: 15px;\n            border-radius: 6px;\n            border-left: 4px solid;\n        \x7d\n        \n        .insight.critical \x7b\n            background: #fee;\n            border-left-color: #ef4444;\n        \x7d\n        \n        .insight.high \x7b\n            background: #fef3c7;\n            border-left-color: #f59e0b;\n        \x7d\n        \n        .insight.medium \x7b\n            background: #dbeafe;\n            border-left-color: #3b82f6;\n        \x7d\n        \n        .insight.info \x7b\n            background: #d1fae5;\n            border-left-color: #10b981;\n        \x7d\n        \n        .insight-header \x7b\n            display: flex;\n            justify-content: space-between;\n            align-items: center;\n            margin-bottom: 8px;\n        \x7d\n        \n        .insight-type \x7b\n            font-weight: 600;\n            font-size: 14px;\n        \x7d\n        \n        .insight-severity \x7b\n            display: inline-block;\n            padding: 2px 8px;\n            border-radius: 3px;\n            font-size: 11px;\n            font-weight: 600;\n            text-transform: uppercase;\n        \x7d\n        \n        .insight-severity.critical \x7b\n            background: #ef4444;\n            color: white;\n        \x7d\n        \n        .insight-severity.high \x7b\n            background: #f59e0b;\n            color: white;\n        \x7d\n        \n        .insight-severity.medium \x7b\n            background: #3b82f6;\n            color: white;\n        \x7d\n        \n        .insight-severity.info \x7b\n            background: #10b981;\n            color: white;\n        \x7d\n        \n        .failures \x7b\n            background: white;\n            padding: 25px;\n            border-radius: 8px;\n            margin-bottom: 30px;\n            box-shadow: 0 2px 4px rgba(0,0,0,0.1);\n        \x7d\n        \n        .failures h2 \x7b\n            font-size: 20px;\n            margin-bottom: 20px;\n            color: #333;\n        \x7d\n        \n        .failure-item \x7b\n            border: 1px solid #e5e7eb;\n            border-radius: 6px;\n            margin-bottom: 20px;\n            overflow: hidden;\n        \x7d\n        \n        .failure-header \x7b\n            background: #f9fafb;\n            padding: 15px;\n            cursor: pointer;\n            display: flex;\n            justify-content: space-between;\n            align-items: center;\n        \x7d\n        \n        .failure-header:hover \x7b\n            background: #f3f4f6;\n        \x7d\n        \n        .failure-title \x7b\n            font-weight: 600;\n            color: #333;\n        \x7d\n        \n        .failure-meta \x7b\n            display: flex;\n            gap: 15px;\n            font-size: 12px;\n            color: #666;\n            margin-top: 5px;\n        \x7d\n        \n        .tag \x7b\n            display: inline-block;\n            background: #e0e7ff;\n            color: #4338ca;\n            padding: 2px 8px;\n            border-radius: 3px;\n            font-size: 11px;\n            margin-right: 5px;\n        \x7d\n        \n        .failure-details \x7b\n            padding: 20px;\n            border-top: 1px solid #e5e7eb;\n            background: #fafafa;\n        \x7d\n        \n        .error-message \x7b\n            background: #fff;\n            border-left: 4px solid #ef4444;\n            padding: 15px;\n            border-radius: 4px;\n            margin-bottom: 15px;\n            font-family: 'Monaco', 'Courier New', monospace;\n            font-size: 13px;\n            color: #dc2626;\n        \x7d\n        \n        .steps \x7b\n            margin-top: 15px;\n        \x7d\n        \n        .step \x7b\n            padding: 10px;\n            margin-bottom: 8px;\n            border-radius: 4px;\n            font-size: 13px;\n        \x7d\n        \n        .step.passed \x7b\n            background: #f0fdf4;\n            border-left: 3px solid #10b981;\n        \x7d\n        \n        .step.failed \x7b\n            background: #fef2f2;\n            border-left: 3px solid #ef4444;\n        \x7d\n        \n        .step.skipped \x7b\n            background: #fef9f3;\n            border-left: 3px solid #f59e0b;\n        \x7d\n        \n        .step-keyword \x7b\n            font-weight: 600;\n            margin-right: 8px;\n        \x7d\n        \n        .stacktrace \x7b\n            background: #1f2937;\n            color: #e5e7eb;\n            padding: 15px;\n            border-radius: 4px;\n            font-family: 'Monaco', 'Courier New', monospace;\n            font-size: 12px;\n            overflow-x: auto;\n            margin-top: 10px;\n            max-height: 300px;\n            overflow-y: auto;\n        \x7d\n        \n        .patterns \x7b\n            background: white;\n            padding: 25px;\n            border-radius: 8px;\n            margin-bottom: 30px;\n            box-shadow: 0 2px 4px rgba(0,0,0,0.1);\n        \x7d\n        \n        .pattern-grid \x7b\n            display: grid;\n            grid-template-columns: repeat(auto-fit, minmax(300px, 1fr));\n            gap: 15px;\n            margin-top: 15px;\n        \x7d\n        \n        .pattern-card \x7b\n            border: 1px solid #e5e7eb;\n            border-radius: 6px;\n            padding: 15px;\n        \x7d\n        \n        .pattern-card h4 \x7b\n            font-size: 14px;\n            margin-bottom: 10px;\n            color: #666;\n        \x7d\n        \n        .pattern-count \x7b\n            font-size: 24px;\n            font-weight: 700;\n            color: #ef4444;\n            margin-bottom: 10px;\n        \x7d\n        \n        footer \x7b\n            text-align: center;\n            padding: 20px;\n            color: #666;\n            font-size: 12px;\n        \x7d\n        \n        .toggle-icon \x7b\n            transition: transform 0.3s;\n        \x7d\n        \n        .toggle-icon.expanded \x7b\n            transform: rotate(180deg);\n        \x7d\n    </style>\n</head>\n<body>\n    <div class=\"container\">\n        <header>\n            <h1>🔍 Test Failure Analysis</h1>\n            <div class=\"metadata\">\n                <div class=\"metadata-item\">\n                    <span class=\"metadata-label\">Build:</span>\n                    <span>"

/-- Template text before slot 2. -/
def htmlSeg2 : String :=
  "</span>\n                </div>\n                <div class=\"metadata-item\">\n                    <span class=\"metadata-label\">Environment:</span>\n                    <span>"

/-- Template text before slot 3. -/
def htmlSeg3 : String :=
  "</span>\n                </div>\n                <div class=\"metadata-item\">\n                    <span class=\"metadata-label\">Duration:</span>\n                    <span>"

/-- Template text before slot 4. -/
def htmlSeg4 : String :=
  "</span>\n                </div>\n                <div class=\"metadata-item\">\n                    <span class=\"metadata-label\">Generated:</span>\n                    <span>"

/-- Template text before slot 5. -/
def htmlSeg5 : String :=
  "</span>\n                </div>\n            </div>\n        </header>\n        \n        <div class=\"summary\">\n            <div class=\"summary-card\">\n                <h3>Total Scenarios</h3>\n                <div class=\"value\">"

/-- Template text before slot 6. -/
def htmlSeg6 : String :=
  "</div>\n            </div>\n            <div class=\"summary-card passed\">\n                <h3>Passed</h3>\n                <div class=\"value\">"

/-- Template text before slot 7. -/
def htmlSeg7 : String :=
  "</div>\n            </div>\n            <div class=\"summary-card failed\">\n                <h3>Failed</h3>\n                <div class=\"value\">"

/-- Template text before slot 8. -/
def htmlSeg8 : String :=
  "</div>\n            </div>\n            <div class=\"summary-card skipped\">\n                <h3>Skipped</h3>\n                <div class=\"value\">"

/-- Template text before slot 9. -/
def htmlSeg9 : String :=
  "</div>\n            </div>\n        </div>\n        \n        "

/-- Template text before slot 10. -/
def htmlSeg10 : String :=
  "\n        \n        "

/-- Template text before slot 11. -/
def htmlSeg11 : String :=
  "\n        \n        "

/-- Template text before slot 12. -/
def htmlSeg12 : String :=
  "\n        \n        <footer>\n            Generated by AI Failure Analyzer | "

/-- Template text before slot 13. -/
def htmlSeg13 : String :=
  "\n        </footer>\n    </div>\n    \n    <script>\n        // Toggle failure details\n        document.querySelectorAll('.failure-header').forEach(header => \x7b\n            header.addEventListener('click', () => \x7b\n                const details = header.nextElementSibling;\n                const icon = header.querySelector('.toggle-icon');\n                \n                if (details.style.display === 'none' || !details.style.display) \x7b\n                    details.style.display = 'block';\n                    icon.classList.add('expanded');\n                \x7d else \x7b\n                    details.style.display = 'none';\n                    icon.classList.remove('expanded');\n                \x7d\n            \x7d);\n        \x7d);\n        \n        // Initially hide all details\n        document.querySelectorAll('.failure-details').forEach(details => \x7b\n            details.style.display = 'none';\n        \x7d);\n    </script>\n</body>\n</html>\n"

/-- `format_duration` (source lines 444-458): "N/A" on a falsy input
(absent, null or 0 milliseconds), otherwise one-decimal seconds below a
minute, minutes below an hour, else hours. -/
def formatDuration (ms : Option ℚ) : String :=
  match ms with
  | none => "N/A"
  | some v =>
    if v = 0 then "N/A"
    else
      let seconds := v / 1000
      if seconds < 60 then fmt1 seconds ++ "s"
      else
        let minutes := seconds / 60
        if minutes < 60 then fmt1 minutes ++ "m"
        else
          let hours := minutes / 60
          fmt1 hours ++ "h"

/-- The per-insight fragment of `generate_insights_section`
(source lines 470-483). -/
def insightHtml (i : Insight) : String :=
  let severity := lowerStr i.severity
  "\n        <div class=\"insight " ++ severity
    ++ "\">\n            <div class=\"insight-header\">\n                <span class=\"insight-type\">"
    ++ i.type
    ++ "</span>\n                <span class=\"insight-severity " ++ severity
    ++ "\">" ++ i.severity
    ++ "</span>\n            </div>\n            <div>" ++ i.message
    ++ "</div>\n            <div style=\"margin-top: 8px; font-size: 13px; opacity: 0.8;\">\n                <strong>Recommendation:</strong> "
    ++ i.recommendation
    ++ "\n            </div>\n        </div>\n        "

/-- `generate_insights_section` (source lines 461-486): empty when the
report has no actionableInsights, else one block per insight in list
order, joined with newlines. -/
def insightsSection (r : Report) : String :=
  let insights := r.actionableInsights.getD []
  if insights.isEmpty then ""
  else
    String.intercalate "\n"
      (["<div class=\"insights\">", "<h2>📊 Actionable Insights</h2>"]
        ++ insights.map insightHtml ++ ["</div>"])

/-- The `pattern_labels` dict of source lines 498-506 (all seven keys are
covered, so the title-cased fallback of line 509 is unreachable). -/
def patternLabel : Cat → String
  | .timeout => "Timeout Failures"
  | .assertion => "Assertion Failures"
  | .connection => "Connection Failures"
  | .authentication => "Authentication Failures"
  | .dataValidation => "Data Validation Failures"
  | .nullPointer => "Null Pointer Failures"
  | .other => "Other Failures"

/-- The per-category card of `generate_patterns_section`
(source lines 510-515). -/
def patternCardHtml (c : Cat) (count : Nat) : String :=
  "\n        <div class=\"pattern-card\">\n            <h4>" ++ patternLabel c
    ++ "</h4>\n            <div class=\"pattern-count\">" ++ toString count
    ++ "</div>\n        </div>\n        "

/-- `generate_patterns_section` (source lines 489-518): empty when the
report has no failurePatternSummary, else one card per entry. -/
def patternsSection (r : Report) : String :=
  let patterns := r.failurePatternSummary.getD []
  if patterns.isEmpty then ""
  else
    String.intercalate "\n"
      (["<div class=\"patterns\">", "<h2>🎯 Failure Patterns</h2>",
        "<div class=\"pattern-grid\">"]
        ++ patterns.map (fun p => patternCardHtml p.1 p.2) ++ ["</div></div>"])

/-- The joined tag spans of source line 532. -/
def tagsHtml (f : Failure) : String :=
  String.join (f.tags.map (fun tag => "<span class=\"tag\">" ++ tag ++ "</span>"))

/-- The fixed opening of one failure entry (source lines 534-549). -/
def failureHeaderHtml (ft : Feature) (f : Failure) : String :=
  "\n            <div class=\"failure-item\">\n                <div class=\"failure-header\">\n                    <div>\n                        <div class=\"failure-title\">"
    ++ f.scenarioName
    ++ "</div>\n                        <div class=\"failure-meta\">\n                            <span>📁 "
    ++ ft.featureName
    ++ "</span>\n                            <span>📍 Line " ++ toString f.line
    ++ "</span>\n                            <span>⏱️ " ++ formatDuration f.duration
    ++ "</span>\n                        </div>\n                        <div style=\"margin-top: 5px;\">"
    ++ tagsHtml f
    ++ "</div>\n                    </div>\n                    <span class=\"toggle-icon\">▼</span>\n                </div>\n                <div class=\"failure-details\">\n            "

/-- The error-message block (source lines 551-556), present only when the
errorMessage is truthy. -/
def errorMessageBlock (f : Failure) : String :=
  if f.errorMessage.getD "" ≠ "" then
    "\n                    <div class=\"error-message\">\n                        ❌ "
      ++ f.errorMessage.getD "Unknown error"
      ++ "\n                    </div>\n                "
  else ""

/-- The conditional per-step error line (source line 567). -/
def stepErrorHtml (s : Step) : String :=
  if s.errorMessage.getD "" ≠ "" then
    "<div style=\"margin-top: 5px; color: #dc2626; font-size: 12px;\">Error: "
      ++ s.errorMessage.getD "" ++ "</div>"
  else ""

/-- One step block (source lines 561-569). -/
def stepHtml (s : Step) : String :=
  let status := lowerStr s.status
  "\n                    <div class=\"step " ++ status
    ++ "\">\n                        <span class=\"step-keyword\">" ++ s.keyword
    ++ "</span>\n                        <span>" ++ s.text
    ++ "</span>\n                        " ++ stepErrorHtml s
    ++ "\n                    </div>\n                    "

/-- The steps block (source lines 558-570), present only when the failure
has steps. -/
def stepsBlock (f : Failure) : String :=
  if f.steps.isEmpty then ""
  else
    "<div class=\"steps\"><h4>Test Steps:</h4>"
      ++ String.join (f.steps.map stepHtml) ++ "</div>"

/-- The stack-trace block (source lines 572-575), present only when the
stackTrace is truthy. -/
def stackTraceBlock (f : Failure) : String :=
  if f.stackTrace.getD "" ≠ "" then
    "\n                    <div class=\"stacktrace\">" ++ f.stackTrace.getD ""
      ++ "</div>\n                "
  else ""

/-- One complete failure entry (source lines 530-577). -/
def failureEntryHtml (ft : Feature) (f : Failure) : String :=
  failureHeaderHtml ft f ++ errorMessageBlock f ++ stepsBlock f
    ++ stackTraceBlock f ++ "</div></div>"

/-- `generate_failures_section` (source lines 521-583): empty when the
report has no failure records, else the counted section wrapper around
the newline-joined entries. -/
def failuresSection (r : Report) : String :=
  let entries := (allFailurePairs r.features).map
    (fun p => failureEntryHtml p.1 p.2)
  if entries.isEmpty then ""
  else
    "<div class=\"failures\"><h2>❌ Failed Scenarios (" ++ toString entries.length
      ++ ")</h2>" ++ String.intercalate "\n" entries ++ "</div>"

/-- `generate_html_report` (source lines 586-603): the template with its
13 slots filled in order; the clock reading
`datetime.now().strftime(...)` is the explicit parameter `ts`. -/
def generateHtmlReport (ts : String) (r : Report) : String :=
  htmlSeg0 ++ r.metadata.buildNumber.getD "Unknown"
    ++ htmlSeg1 ++ r.metadata.buildNumber.getD "Unknown"
    ++ htmlSeg2 ++ r.metadata.environment.getD "default"
    ++ htmlSeg3 ++ formatDuration r.metadata.duration
    ++ htmlSeg4 ++ ts
    ++ htmlSeg5 ++ toString r.summary.totalScenarios
    ++ htmlSeg6 ++ toString r.summary.passedScenarios
    ++ htmlSeg7 ++ toString r.summary.failedScenarios
    ++ htmlSeg8 ++ toString r.summary.skippedScenarios
    ++ htmlSeg9 ++ insightsSection r
    ++ htmlSeg10 ++ patternsSection r
    ++ htmlSeg11 ++ failuresSection r
    ++ htmlSeg12 ++ ts
    ++ htmlSeg13

/-- The report document rendered with no enhancement fields and no
features: a concrete input for counterexamples and witnesses. -/
def emptyReport : Report :=
  { metadata := { buildNumber := none, environment := none, duration := none }
    summary := { totalScenarios := 0, passedScenarios := 0,
                 failedScenarios := 0, skippedScenarios := 0 }
    features := [] }

/-- The rendered document text before the first timestamp slot — a
function of the report alone. -/
def htmlBeforeTs (r : Report) : String :=
  htmlSeg0 ++ r.metadata.buildNumber.getD "Unknown"
    ++ htmlSeg1 ++ r.metadata.buildNumber.getD "Unknown"
    ++ htmlSeg2 ++ r.metadata.environment.getD "default"
    ++ htmlSeg3 ++ formatDuration r.metadata.duration
    ++ htmlSeg4

/-- The rendered document text between the two timestamp slots — a
function of the report alone. -/
def htmlMidTs (r : Report) : String :=
  htmlSeg5 ++ toString r.summary.totalScenarios
    ++ htmlSeg6 ++ toString r.summary.passedScenarios
    ++ htmlSeg7 ++ toString r.summary.failedScenarios
    ++ htmlSeg8 ++ toString r.summary.skippedScenarios
    ++ htmlSeg9 ++ insightsSection r
    ++ htmlSeg10 ++ patternsSection r
    ++ htmlSeg11 ++ failuresSection r
    ++ htmlSeg12

/-- The rendered document text after the last timestamp slot. -/
def htmlAfterTs : String := htmlSeg13

theorem classify_eq_firstMatch (msg ty : String) :
    classifyFailure msg ty = specFirstMatchClassify msg ty := rfl

theorem countIn_partition (l : List (Feature × Failure)) :
    countIn .timeout l + countIn .assertion l + countIn .connection l +
    countIn .authentication l + countIn .dataValidation l +
    countIn .nullPointer l + countIn .other l = l.length := by
  induction l with
  | nil => simp [countIn]
  | cons p t ih =>
    rcases h : classOf p.2 <;>
      simp +decide [countIn, List.filter_cons, h] at ih ⊢ <;> omega

theorem patternsMap_length (features : List Feature) (c : Cat) :
    (patternsMap features c).length = countIn c (allFailurePairs features) := by
  simp [patternsMap, countIn]

/-- C1: every failure record is assigned exactly one of the seven
categories (the seven per-category counts sum to the total number of
failure records), the assignment is first-match-wins over the priority
order timeout, assertion, connection, authentication, data-validation,
null-pointer, other on the lowered message and type, and a message
containing "timeout" — in particular one containing both "timeout" and
"invalid" — always classifies as timeout_failures, never as
data_validation_failures. -/
theorem c1_classifier_exactly_one_first_match
    (features : List Feature) (msg ty : String) :
    ((catOrder.map (fun c => (patternsMap features c).length)).sum
      = (allFailurePairs features).length)
    ∧ classifyFailure msg ty = specFirstMatchClassify msg ty
    ∧ (strHas (lowerStr msg) "timeout" = true →
        classifyFailure msg ty = Cat.timeout
        ∧ classifyFailure msg ty ≠ Cat.dataValidation) := by
  refine ⟨?_, rfl, ?_⟩
  · have hp := countIn_partition (allFailurePairs features)
    simp [catOrder, patternsMap_length]
    omega
  · intro h
    have hc : classifyFailure msg ty = Cat.timeout := by
      simp [classifyFailure, h]
    exact ⟨hc, by simp [hc]⟩

/-- Witness for C1 at a concrete failure message containing both
"timeout" and "invalid": it classifies as timeout_failures. -/
theorem c1_witness :
    classifyFailure "Timeout while checking invalid data" "" = Cat.timeout
    ∧ classifyFailure "Timeout while checking invalid data" ""
        ≠ Cat.dataValidation :=
  (c1_classifier_exactly_one_first_match []
    "Timeout while checking invalid data" "").2.2 (by decide)

/-- C6: the failurePatterns map contains no empty-list entries, and for
every category present, the count in failurePatternSummary equals the
length of the corresponding list in failurePatterns. -/
theorem c6_no_empty_categories_counts_match (features : List Feature) :
    (∀ p ∈ failurePatterns features, p.2 ≠ [])
    ∧ (∀ c l, (c, l) ∈ failurePatterns features →
        (c, l.length) ∈ failurePatternSummary features) := by
  constructor
  · intro p hp
    simp only [failurePatterns, List.mem_filterMap] at hp
    obtain ⟨c, _, h⟩ := hp
    by_cases he : (patternsMap features c).isEmpty
    · simp [he] at h
    · simp [he] at h
      subst h
      simpa [List.isEmpty_iff] using he
  · intro c l h
    exact List.mem_map.mpr ⟨(c, l), h, rfl⟩

theorem mem_patternInsights_types (pat : Cat → Nat) (i : Insight)
    (h : i ∈ patternInsights pat) :
    i.type = "TIMEOUT_PATTERN" ∨ i.type = "AUTH_PATTERN" ∨
    i.type = "CONNECTION_PATTERN" ∨ i.type = "NPE_PATTERN" := by
  simp only [patternInsights, List.mem_append] at h
  rcases h with ((h | h) | h) | h <;>
    rw [List.mem_ite_nil_right, List.mem_singleton] at h <;>
    rw [h.2] <;> simp [timeoutInsight, authInsight, connectionInsight, npeInsight]

theorem mem_rateInsights_types (failed total : Nat) (i : Insight)
    (h : i ∈ rateInsights failed total) :
    i.type = "HIGH_FAILURE_RATE" ∨ i.type = "MODERATE_FAILURE_RATE" := by
  simp only [rateInsights] at h
  split at h
  · split at h
    · simp at h; rw [h]; left; rfl
    · split at h
      · simp at h; rw [h]; right; rfl
      · simp at h
  · simp at h

theorem rateInsights_length (failed total : Nat) :
    (rateInsights failed total).length ≤ 1 := by
  simp only [rateInsights]
  split
  · split
    · simp
    · split <;> simp
  · simp

/-- Witness for C6 at the concrete feature list: its timeout category is
present with one element, and the summary records count 1 for it. -/
theorem c6_witness :
    (Cat.timeout,
      [{ feature := "Booking API", scenario := "Booking create times out",
         line := 12, error := "Connection timed out after 503" : FailureInfo }])
        ∈ failurePatterns sampleFeatures
    ∧ (Cat.timeout, 1) ∈ failurePatternSummary sampleFeatures :=
  ⟨by decide,
   (c6_no_empty_categories_counts_match sampleFeatures).2 Cat.timeout
     [{ feature := "Booking API", scenario := "Booking create times out",
        line := 12, error := "Connection timed out after 503" }] (by decide)⟩

/-- C2: with positive totals and failures, the CRITICAL
HIGH_FAILURE_RATE insight is emitted exactly when failed/total*100
exceeds 50, the HIGH MODERATE_FAILURE_RATE insight exactly when it
exceeds 20 but not 50, and neither insight when it is at most 20. -/
theorem c2_rate_thresholds (failed total : Nat) (pat : Cat → Nat)
    (ht : 0 < total) (hf : 0 < failed) :
    ((∃ i ∈ addActionableInsights failed total pat,
        i.type = "HIGH_FAILURE_RATE" ∧ i.severity = "CRITICAL")
      ↔ 50 < failureRate failed total)
    ∧ ((∃ i ∈ addActionableInsights failed total pat,
        i.type = "MODERATE_FAILURE_RATE" ∧ i.severity = "HIGH")
      ↔ (20 < failureRate failed total ∧ ¬ 50 < failureRate failed total)) := by
  have hne : failed ≠ 0 := hf.ne'
  constructor
  · constructor
    · rintro ⟨i, hi, hty, _⟩
      simp only [addActionableInsights, if_neg hne, List.mem_append] at hi
      rcases hi with hi | hi
      · simp only [rateInsights, if_pos ht] at hi
        by_cases h50 : 50 < failureRate failed total
        · exact h50
        · by_cases h20 : 20 < failureRate failed total <;>
            simp [h50, h20] at hi
          simp [hi, moderateRateInsight] at hty
      · rcases mem_patternInsights_types pat i hi with h | h | h | h <;>
          rw [hty] at h <;> exact absurd h (by decide)
    · intro h50
      refine ⟨criticalRateInsight failed total, ?_, rfl, rfl⟩
      simp only [addActionableInsights, if_neg hne, List.mem_append]
      left
      simp [rateInsights, if_pos ht, if_pos h50]
  · constructor
    · rintro ⟨i, hi, hty, _⟩
      simp only [addActionableInsights, if_neg hne, List.mem_append] at hi
      rcases hi with hi | hi
      · simp only [rateInsights, if_pos ht] at hi
        by_cases h50 : 50 < failureRate failed total
        · simp [h50] at hi; simp [hi, criticalRateInsight] at hty
        · by_cases h20 : 20 < failureRate failed total
          · exact ⟨h20, h50⟩
          · simp [h50, h20] at hi
      · rcases mem_patternInsights_types pat i hi with h | h | h | h <;>
          rw [hty] at h <;> exact absurd h (by decide)
    · rintro ⟨h20, h50⟩
      refine ⟨moderateRateInsight failed total, ?_, rfl, rfl⟩
      simp only [addActionableInsights, if_neg hne, List.mem_append]
      left
      simp [rateInsights, if_pos ht, if_neg h50, if_pos h20]

/-- Witness for C2: 6 failed of 10 total (60 percent) emits the
CRITICAL high-failure-rate insight. -/
theorem c2_witness :
    ∃ i ∈ addActionableInsights 6 10 (fun _ => 0),
      i.type = "HIGH_FAILURE_RATE" ∧ i.severity = "CRITICAL" :=
  ((c2_rate_thresholds 6 10 (fun _ => 0) (by decide) (by decide)).1).mpr
    (by norm_num [failureRate])

/-- C3: whenever the summary records 0 failed scenarios, the emitted
actionableInsights list is exactly the single SUCCESS/INFO insight — no
insight of any other type is present — both at the insight generator and
in the enhanced report. -/
theorem c3_zero_failed_single_success (total : Nat) (pat : Cat → Nat)
    (r : Report) (ts : String) :
    addActionableInsights 0 total pat = [successInsight]
    ∧ (addActionableInsights 0 total pat).length = 1
    ∧ (∀ i ∈ addActionableInsights 0 total pat,
        i.type = "SUCCESS" ∧ i.severity = "INFO")
    ∧ (r.summary.failedScenarios = 0 →
        (enhanceReport ts r).actionableInsights = some [successInsight]) := by
  refine ⟨rfl, rfl, ?_, ?_⟩
  · intro i hi
    simp [addActionableInsights] at hi
    rw [hi]
    exact ⟨rfl, rfl⟩
  · intro h
    show some (addActionableInsights r.summary.failedScenarios
      r.summary.totalScenarios
      (patLookup (some (failurePatternSummary r.features)))) = some [successInsight]
    rw [h]
    rfl

/-- Witness for C3 at total = 10 and a concrete report with 0 failed
scenarios: the list is the single SUCCESS/INFO insight. -/
theorem c3_witness :
    addActionableInsights 0 10 (fun _ => 0) = [successInsight]
    ∧ (successInsight.type = "SUCCESS" ∧ successInsight.severity = "INFO")
    ∧ (enhanceReport "2025-01-01T00:00:00" emptyReport).actionableInsights
        = some [successInsight] :=
  ⟨(c3_zero_failed_single_success 10 (fun _ => 0) emptyReport "t").1,
   (c3_zero_failed_single_success 10 (fun _ => 0) emptyReport "t").2.2.1
     successInsight (by decide),
   (c3_zero_failed_single_success 10 (fun _ => 0) emptyReport
     "2025-01-01T00:00:00").2.2.2 rfl⟩

theorem mem_patternInsights_iff (pat : Cat → Nat) (i : Insight) :
    i ∈ patternInsights pat ↔
      (2 < pat .timeout ∧ i = timeoutInsight (pat .timeout))
      ∨ (0 < pat .authentication ∧ i = authInsight (pat .authentication))
      ∨ (0 < pat .connection ∧ i = connectionInsight (pat .connection))
      ∨ (0 < pat .nullPointer ∧ i = npeInsight (pat .nullPointer)) := by
  simp [patternInsights, List.mem_append, List.mem_ite_nil_right, or_assoc]

/-- C4: with failures present, the pattern-count insights are additive —
a timeout insight exactly when the timeout count exceeds 2, and an
authentication / connection / null-pointer insight exactly when the
respective count is positive — each with its fixed severity and static
recommendation, and the list is the at-most-one rate insight followed by
the timeout, authentication, connection, null-pointer insights in that
fixed order. -/
theorem c4_pattern_insights_additive (failed total : Nat) (pat : Cat → Nat)
    (hf : 0 < failed) :
    (addActionableInsights failed total pat
      = rateInsights failed total
        ++ (if 2 < pat .timeout then [timeoutInsight (pat .timeout)] else [])
        ++ (if 0 < pat .authentication then [authInsight (pat .authentication)] else [])
        ++ (if 0 < pat .connection then [connectionInsight (pat .connection)] else [])
        ++ (if 0 < pat .nullPointer then [npeInsight (pat .nullPointer)] else []))
    ∧ (rateInsights failed total).length ≤ 1
    ∧ ((∃ i ∈ addActionableInsights failed total pat, i.type = "TIMEOUT_PATTERN")
        ↔ 2 < pat .timeout)
    ∧ ((∃ i ∈ addActionableInsights failed total pat, i.type = "AUTH_PATTERN")
        ↔ 0 < pat .authentication)
    ∧ ((∃ i ∈ addActionableInsights failed total pat, i.type = "CONNECTION_PATTERN")
        ↔ 0 < pat .connection)
    ∧ ((∃ i ∈ addActionableInsights failed total pat, i.type = "NPE_PATTERN")
        ↔ 0 < pat .nullPointer)
    ∧ (timeoutInsight (pat .timeout)).severity = "HIGH"
    ∧ (authInsight (pat .authentication)).severity = "HIGH"
    ∧ (connectionInsight (pat .connection)).severity = "CRITICAL"
    ∧ (npeInsight (pat .nullPointer)).severity = "MEDIUM"
    ∧ (timeoutInsight (pat .timeout)).recommendation
        = "Check application response times, database performance, or increase timeout thresholds."
    ∧ (authInsight (pat .authentication)).recommendation
        = "Verify test credentials and authentication endpoints are working correctly."
    ∧ (connectionInsight (pat .connection)).recommendation
        = "Check network connectivity, service availability, and firewall rules."
    ∧ (npeInsight (pat .nullPointer)).recommendation
        = "Review test data setup and null handling in step definitions." := by
  have hne : failed ≠ 0 := hf.ne'
  have hmem : ∀ i : Insight, i ∈ addActionableInsights failed total pat ↔
      i ∈ rateInsights failed total ∨
      ((2 < pat .timeout ∧ i = timeoutInsight (pat .timeout))
       ∨ (0 < pat .authentication ∧ i = authInsight (pat .authentication))
       ∨ (0 < pat .connection ∧ i = connectionInsight (pat .connection))
       ∨ (0 < pat .nullPointer ∧ i = npeInsight (pat .nullPointer))) := by
    intro i
    rw [addActionableInsights, if_neg hne, List.mem_append, mem_patternInsights_iff]
  refine ⟨?_, rateInsights_length failed total, ?_, ?_, ?_, ?_,
    rfl, rfl, rfl, rfl, rfl, rfl, rfl, rfl⟩
  · simp [addActionableInsights, if_neg hne, patternInsights, List.append_assoc]
  · constructor
    · rintro ⟨i, hi, hty⟩
      rw [hmem] at hi
      rcases hi with hr | (⟨hc, rfl⟩ | ⟨_, rfl⟩ | ⟨_, rfl⟩ | ⟨_, rfl⟩)
      · rcases mem_rateInsights_types _ _ _ hr with h | h <;>
          rw [hty] at h <;> exact absurd h (by decide)
      · exact hc
      · simp [timeoutInsight, authInsight, connectionInsight, npeInsight] at hty
      · simp [timeoutInsight, authInsight, connectionInsight, npeInsight] at hty
      · simp [timeoutInsight, authInsight, connectionInsight, npeInsight] at hty
    · intro hc
      exact ⟨timeoutInsight (pat .timeout),
        (hmem _).mpr (Or.inr (Or.inl ⟨hc, rfl⟩)), rfl⟩
  · constructor
    · rintro ⟨i, hi, hty⟩
      rw [hmem] at hi
      rcases hi with hr | (⟨_, rfl⟩ | ⟨hc, rfl⟩ | ⟨_, rfl⟩ | ⟨_, rfl⟩)
      · rcases mem_rateInsights_types _ _ _ hr with h | h <;>
          rw [hty] at h <;> exact absurd h (by decide)
      · simp [timeoutInsight, authInsight, connectionInsight, npeInsight] at hty
      · exact hc
      · simp [timeoutInsight, authInsight, connectionInsight, npeInsight] at hty
      · simp [timeoutInsight, authInsight, connectionInsight, npeInsight] at hty
    · intro hc
      exact ⟨authInsight (pat .authentication),
        (hmem _).mpr (Or.inr (Or.inr (Or.inl ⟨hc, rfl⟩))), rfl⟩
  · constructor
    · rintro ⟨i, hi, hty⟩
      rw [hmem] at hi
      rcases hi with hr | (⟨_, rfl⟩ | ⟨_, rfl⟩ | ⟨hc, rfl⟩ | ⟨_, rfl⟩)
      · rcases mem_rateInsights_types _ _ _ hr with h | h <;>
          rw [hty] at h <;> exact absurd h (by decide)
      · simp [timeoutInsight, authInsight, connectionInsight, npeInsight] at hty
      · simp [timeoutInsight, authInsight, connectionInsight, npeInsight] at hty
      · exact hc
      · simp [timeoutInsight, authInsight, connectionInsight, npeInsight] at hty
    · intro hc
      exact ⟨connectionInsight (pat .connection),
        (hmem _).mpr (Or.inr (Or.inr (Or.inr (Or.inl ⟨hc, rfl⟩)))), rfl⟩
  · constructor
    · rintro ⟨i, hi, hty⟩
      rw [hmem] at hi
      rcases hi with hr | (⟨_, rfl⟩ | ⟨_, rfl⟩ | ⟨_, rfl⟩ | ⟨hc, rfl⟩)
      · rcases mem_rateInsights_types _ _ _ hr with h | h <;>
          rw [hty] at h <;> exact absurd h (by decide)
      · simp [timeoutInsight, authInsight, connectionInsight, npeInsight] at hty
      · simp [timeoutInsight, authInsight, connectionInsight, npeInsight] at hty
      · simp [timeoutInsight, authInsight, connectionInsight, npeInsight] at hty
      · exact hc
    · intro hc
      exact ⟨npeInsight (pat .nullPointer),
        (hmem _).mpr (Or.inr (Or.inr (Or.inr (Or.inr ⟨hc, rfl⟩)))), rfl⟩

/-- Witness for C4: one failure of 100 scenarios (no rate insight) with
3 timeout failures and 1 authentication failure recorded yields exactly
the timeout insight followed by the authentication insight. -/
theorem c4_witness :
    addActionableInsights 1 100
        (fun c => match c with
          | Cat.timeout => 3 | Cat.authentication => 1 | _ => 0)
      = [timeoutInsight 3, authInsight 1] := by
  have h := (c4_pattern_insights_additive 1 100
    (fun c => match c with
      | Cat.timeout => 3 | Cat.authentication => 1 | _ => 0) (by decide)).1
  rw [h]
  norm_num [rateInsights, failureRate]

/-- C5: the retry advisor emits one record per failure in input traversal
order; the verdict is true exactly when the lowered error message contains
one of the seven transient keywords; the reason strings are the two fixed
texts; the message "Connection timed out after 503" is marked retryable
with reason "Transient failure detected" and "Expected true but got false"
non-retryable with reason "Deterministic failure - requires fix". -/
theorem c5_retry_advisor (features : List Feature) :
    (addRetrySuggestions features
      = (allFailurePairs features).map (fun p => retrySuggestionOf p.1 p.2))
    ∧ (addRetrySuggestions features).length = (allFailurePairs features).length
    ∧ (∀ ft f, ((retrySuggestionOf ft f).shouldRetry = true
        ↔ ∃ kw ∈ transientKeywords,
            strHas (lowerStr (f.errorMessage.getD "")) kw = true))
    ∧ (∀ ft f, (retrySuggestionOf ft f).reason
        = if (retrySuggestionOf ft f).shouldRetry
          then "Transient failure detected"
          else "Deterministic failure - requires fix")
    ∧ (∀ ft f, f.errorMessage = some "Connection timed out after 503" →
        (retrySuggestionOf ft f).shouldRetry = true
        ∧ (retrySuggestionOf ft f).reason = "Transient failure detected")
    ∧ (∀ ft f, f.errorMessage = some "Expected true but got false" →
        (retrySuggestionOf ft f).shouldRetry = false
        ∧ (retrySuggestionOf ft f).reason
            = "Deterministic failure - requires fix") := by
  refine ⟨rfl, by simp [addRetrySuggestions], ?_, ?_, ?_, ?_⟩
  · intro ft f
    simp [retrySuggestionOf, isTransient, List.any_eq_true]
  · intro ft f
    simp [retrySuggestionOf]
  · intro ft f h
    have ht : isTransient (f.errorMessage.getD "") = true := by
      rw [h]; decide
    constructor <;> simp [retrySuggestionOf, ht]
  · intro ft f h
    have ht : isTransient (f.errorMessage.getD "") = false := by
      rw [h]; decide
    constructor <;> simp [retrySuggestionOf, ht]

/-- Witness for C5 at the two concrete failures of the claim text. -/
theorem c5_witness :
    ((retrySuggestionOf { featureName := "Booking API", failures := [] }
        sampleTimeoutFailure).shouldRetry = true
      ∧ (retrySuggestionOf { featureName := "Booking API", failures := [] }
          sampleTimeoutFailure).reason = "Transient failure detected")
    ∧ ((retrySuggestionOf { featureName := "Booking API", failures := [] }
        sampleAssertFailure).shouldRetry = false
      ∧ (retrySuggestionOf { featureName := "Booking API", failures := [] }
          sampleAssertFailure).reason
            = "Deterministic failure - requires fix") :=
  ⟨(c5_retry_advisor []).2.2.2.2.1 _ sampleTimeoutFailure rfl,
   (c5_retry_advisor []).2.2.2.2.2 _ sampleAssertFailure rfl⟩

/-- C7: enhancing an already-enhanced report reproduces identical
classification fields — failurePatterns, failurePatternSummary,
errorCategories, errorCategorySummary, actionableInsights and
retrySuggestions agree between the first and second enhancement — and
only the enhancement timestamp differs (it becomes the second clock
reading). -/
theorem c7_enhance_idempotent_modulo_timestamp (r : Report) (t1 t2 : String) :
    (enhanceReport t2 (enhanceReport t1 r)).failurePatterns
        = (enhanceReport t1 r).failurePatterns
    ∧ (enhanceReport t2 (enhanceReport t1 r)).failurePatternSummary
        = (enhanceReport t1 r).failurePatternSummary
    ∧ (enhanceReport t2 (enhanceReport t1 r)).errorCategories
        = (enhanceReport t1 r).errorCategories
    ∧ (enhanceReport t2 (enhanceReport t1 r)).errorCategorySummary
        = (enhanceReport t1 r).errorCategorySummary
    ∧ (enhanceReport t2 (enhanceReport t1 r)).actionableInsights
        = (enhanceReport t1 r).actionableInsights
    ∧ (enhanceReport t2 (enhanceReport t1 r)).retrySuggestions
        = (enhanceReport t1 r).retrySuggestions
    ∧ (enhanceReport t1 r).enhancement
        = some { enhancedAt := t1, version := "1.0.0" }
    ∧ (enhanceReport t2 (enhanceReport t1 r)).enhancement
        = some { enhancedAt := t2, version := "1.0.0" } :=
  ⟨rfl, rfl, rfl, rfl, rfl, rfl, rfl, rfl⟩

/-- C8 counterexample: the outputs are NOT independent of everything but
the input document — two runs of the enhancer at different clock readings
differ on the same input (the embedded enhancement timestamp differs), so
the claimed conjunction fails. -/
theorem c8_counterexample :
    ¬ ((enhanceReport "2025-01-01T00:00:00" emptyReport
          = enhanceReport "2025-01-01T00:00:01" emptyReport)
        ∧ (generateHtmlReport "2025-01-01 00:00:00" emptyReport
          = generateHtmlReport "2025-01-01 00:00:01" emptyReport)) := by
  rintro ⟨h, -⟩
  have h2 := congrArg Report.enhancement h
  simp [enhanceReport] at h2

/-- C8 amended: both pipelines are deterministic functions of the input
document and the invocation clock reading, and apart from the embedded
timestamp they depend only on the input document — the enhanced report
with the enhancement stamp erased is identical across clock readings, and
the rendered HTML is a fixed function of the document with the clock
reading spliced in at exactly the two timestamp slots. -/
theorem c8_pure_up_to_timestamp (r rep : Report) (t1 t2 t : String) :
    ({ enhanceReport t1 r with enhancement := none }
      = { enhanceReport t2 r with enhancement := none })
    ∧ generateHtmlReport t rep
        = htmlBeforeTs rep ++ t ++ htmlMidTs rep ++ t ++ htmlAfterTs := by
  constructor
  · rfl
  · simp only [generateHtmlReport, htmlBeforeTs, htmlMidTs, htmlAfterTs,
      String.append_assoc]

/-- C9: section-level and sub-block-level graceful degradation of the
renderer — a report with no failure records gets an empty failures
section, absent insights and pattern summaries give empty sections, a
failure lacking steps, stackTrace or tags is rendered (total function, no
error) without the corresponding sub-block. -/
theorem c9_renderer_graceful_degradation (r : Report) :
    (allFailurePairs r.features = [] → failuresSection r = "")
    ∧ (r.actionableInsights.getD [] = [] → insightsSection r = "")
    ∧ (r.failurePatternSummary.getD [] = [] → patternsSection r = "")
    ∧ (∀ f : Failure, f.steps = [] → stepsBlock f = "")
    ∧ (∀ f : Failure, f.stackTrace = none → stackTraceBlock f = "")
    ∧ (∀ f : Failure, f.tags = [] → tagsHtml f = "")
    ∧ (∀ ft f, f.steps = [] → f.stackTrace = none →
        failureEntryHtml ft f
          = failureHeaderHtml ft f ++ errorMessageBlock f ++ "</div></div>") := by
  refine ⟨?_, ?_, ?_, ?_, ?_, ?_, ?_⟩
  · intro h; simp [failuresSection, h]
  · intro h; simp [insightsSection, h]
  · intro h; simp [patternsSection, h]
  · intro f h; simp [stepsBlock, h]
  · intro f h; simp [stackTraceBlock, h]
  · intro f h; simp [tagsHtml, h, String.join]
  · intro ft f hs hst
    simp [failureEntryHtml, stepsBlock, hs, stackTraceBlock, hst,
      String.append_empty, String.append_assoc]

/-- Witness for C9: a report with zero failure records yields an empty
failures section (and empty insights and patterns sections), and a
concrete failure without steps, stackTrace or tags renders without those
sub-blocks. -/
theorem c9_witness :
    failuresSection emptyReport = ""
    ∧ insightsSection emptyReport = ""
    ∧ patternsSection emptyReport = ""
    ∧ stepsBlock sampleAssertFailure = ""
    ∧ stackTraceBlock sampleAssertFailure = ""
    ∧ tagsHtml sampleAssertFailure = ""
    ∧ failureEntryHtml { featureName := "Booking API", failures := [] }
        sampleAssertFailure
      = failureHeaderHtml { featureName := "Booking API", failures := [] }
          sampleAssertFailure
        ++ errorMessageBlock sampleAssertFailure ++ "</div></div>" :=
  ⟨(c9_renderer_graceful_degradation emptyReport).1 rfl,
   (c9_renderer_graceful_degradation emptyReport).2.1 rfl,
   (c9_renderer_graceful_degradation emptyReport).2.2.1 rfl,
   (c9_renderer_graceful_degradation emptyReport).2.2.2.1 sampleAssertFailure rfl,
   (c9_renderer_graceful_degradation emptyReport).2.2.2.2.1 sampleAssertFailure rfl,
   (c9_renderer_graceful_degradation emptyReport).2.2.2.2.2.1 sampleAssertFailure rfl,
   (c9_renderer_graceful_degradation emptyReport).2.2.2.2.2.2
     { featureName := "Booking API", failures := [] } sampleAssertFailure rfl rfl⟩

/-- C10: format_duration maps every falsy duration — absent or exactly 0
milliseconds — to "N/A" (in particular 0 is NOT rendered "0.0s"), and a
truthy duration to one-decimal seconds below one minute, minutes below
one hour, hours otherwise. -/
theorem c10_format_duration_falsy_zero :
    formatDuration (some 0) = "N/A"
    ∧ formatDuration none = "N/A"
    ∧ formatDuration (some 0) = formatDuration none
    ∧ formatDuration (some 0) ≠ "0.0s"
    ∧ (∀ ms : ℚ, ms ≠ 0 → ms / 1000 < 60 →
        formatDuration (some ms) = fmt1 (ms / 1000) ++ "s")
    ∧ (∀ ms : ℚ, ms ≠ 0 → ¬ ms / 1000 < 60 → ms / 1000 / 60 < 60 →
        formatDuration (some ms) = fmt1 (ms / 1000 / 60) ++ "m")
    ∧ (∀ ms : ℚ, ms ≠ 0 → ¬ ms / 1000 < 60 → ¬ ms / 1000 / 60 < 60 →
        formatDuration (some ms) = fmt1 (ms / 1000 / 60 / 60) ++ "h") := by
  refine ⟨rfl, rfl, rfl, by decide, ?_, ?_, ?_⟩
  · intro ms h0 hs
    simp [formatDuration, h0, hs]
  · intro ms h0 hs hm
    simp [formatDuration, h0, hs, hm]
  · intro ms h0 hs hm
    simp [formatDuration, h0, hs, hm]

theorem roundHalfEven_intCast (n : ℤ) : roundHalfEven ((n : ℚ)) = n := by
  unfold roundHalfEven
  norm_num

theorem fmt1_five : fmt1 5 = "5.0" := by
  unfold fmt1
  rw [show ((5 : ℚ) * 10) = ((50 : ℤ) : ℚ) by norm_num, roundHalfEven_intCast]
  rfl

/-- Witness for C10: 5000 ms renders as one-decimal seconds. -/
theorem c10_witness :
    formatDuration (some 5000) = fmt1 ((5000 : ℚ) / 1000) ++ "s"
    ∧ formatDuration (some 5000) = "5.0s" := by
  have h := c10_format_duration_falsy_zero.2.2.2.2.1 5000
    (by norm_num) (by norm_num)
  refine ⟨h, ?_⟩
  rw [h, show ((5000 : ℚ) / 1000) = 5 by norm_num, fmt1_five]
  rfl
